import Mathlib

/-!
# grbl-Mega `main.c`: the system-state supervisor

A shallow embedding of `grbl/main.c`: the global variables it declares
(`sys`, `sys_position`, `sys_probe_position`, `sys_probe_state` and the four
realtime executor registers), `port_init`, the power-up part of `main` and
the body of its `for(;;)` initialization loop.

Conventions.
* `uint8_t` values are `Nat`; the only arithmetic `main.c` performs on them is
  the bit manipulation of `port_init`, which is reduced modulo `2^8`
  explicitly.  `int32_t` axis values are `Int`.
* A C array is a `List`; `memset(a, 0, sizeof(a))` writes zero to every
  element and keeps the number of elements.
* Functions that `main` calls but that live in other translation units are
  recorded in a call trace, in the order `main` calls them.
-/

namespace Grbl

/-! ## Data model -/

/-- Modelled from the spec: `system_t` is declared in a header that is not part
of `main.c`.  The record holds the Operating State and the three override
percentages (the four fields `main` assigns by name), the abort and suspend
flags, and its remaining transient bytes as a block of `k` bytes. -/
structure system_t (k : Nat) where
  state : Nat
  abort : Nat
  suspend : Nat
  f_override : Nat
  r_override : Nat
  spindle_speed_ovr : Nat
  rest : Mathlib.Vector Nat k
  deriving DecidableEq

/-- The functions `main` calls, as they are named in `main.c`. -/
inductive Call where
  | port_init
  | serial_init
  | settings_init
  | stepper_init
  | system_init
  | sei
  | serial_reset_read_buffer
  | gc_init
  | spindle_init
  | coolant_init
  | limits_init
  | probe_init
  | sleep_init
  | plan_reset
  | st_reset
  | plan_sync_position
  | gc_sync_position
  | report_init_message
  | protocol_main_loop
  deriving DecidableEq, Repr

/-- One AVR I/O port: its data direction register `DDRx` and its output
register `PORTx`. -/
structure Port where
  ddr : Nat
  port : Nat
  deriving DecidableEq, Repr

/-- The I/O ports `port_init` configures. -/
structure Ports where
  A : Port
  B : Port
  C : Port
  D : Port
  E : Port
  F : Port
  G : Port
  H : Port
  J : Port
  K : Port
  L : Port
  deriving DecidableEq, Repr

/-- Contents of the four realtime executor registers (the Signal Bus). -/
structure Bus where
  exec_state : Nat
  exec_alarm : Nat
  motion_override : Nat
  accessory_override : Nat
  deriving DecidableEq, Repr

/-- The memory `main` works on.  The first eight fields are the globals
declared in `main.c`; `settings_flags` is `settings.flags`; `gc_position` and
`pl_position` are the position trackers private to the g-code parser and to
the planner; `trace` lists the calls made so far, oldest first. -/
structure State (k : Nat) where
  sys : system_t k
  sys_position : List Int
  sys_probe_position : List Int
  sys_probe_state : Nat
  sys_rt_exec_state : Nat
  sys_rt_exec_alarm : Nat
  sys_rt_exec_motion_override : Nat
  sys_rt_exec_accessory_override : Nat
  settings_flags : Nat
  ports : Ports
  gc_position : List Int
  pl_position : List Int
  trace : List Call
  deriving DecidableEq

/-! ## Constants and macros from headers outside `main.c` -/

/-- Modelled from the spec: `DEFAULT_FEED_OVERRIDE` is defined in a
configuration header that is not part of `main.c`; the spec gives the fixed
default as 100% and `main.c` comments the assignment "Set to 100%". -/
def DEFAULT_FEED_OVERRIDE : Nat := 100

/-- Modelled from the spec: `DEFAULT_RAPID_OVERRIDE`, as
`DEFAULT_FEED_OVERRIDE` ("Set to 100%"). -/
def DEFAULT_RAPID_OVERRIDE : Nat := 100

/-- Modelled from the spec: `DEFAULT_SPINDLE_SPEED_OVERRIDE`, as
`DEFAULT_FEED_OVERRIDE` ("Set to 100%"). -/
def DEFAULT_SPINDLE_SPEED_OVERRIDE : Nat := 100

/-- `memset(a, 0, sizeof(a))` on an array of `int32_t`. -/
def memset_zero (a : List Int) : List Int :=
  List.replicate a.length 0

/-- `memset(&sys, 0, sizeof(system_t))`: every byte of the record is zero. -/
def system_t.zero (k : Nat) : system_t k :=
  { state := 0, abort := 0, suspend := 0, f_override := 0, r_override := 0,
    spindle_speed_ovr := 0, rest := Mathlib.Vector.replicate k 0 }

/-! ## The reset of the system variables (`main.c`, top of the `for(;;)` body) -/

/-- Lines 179-190 of `main.c`: the statements between `for(;;) {` and the
first subsystem call. -/
def reset_variables {k : Nat} (s : State k) : State k :=
  let prior_state := s.sys.state
  let s := { s with sys := system_t.zero k }
  let s := { s with sys := { s.sys with state := prior_state } }
  let s := { s with sys := { s.sys with f_override := DEFAULT_FEED_OVERRIDE } }
  let s := { s with sys := { s.sys with r_override := DEFAULT_RAPID_OVERRIDE } }
  let s := { s with sys := { s.sys with spindle_speed_ovr := DEFAULT_SPINDLE_SPEED_OVERRIDE } }
  let s := { s with sys_probe_position := memset_zero s.sys_probe_position }
  let s := { s with sys_probe_state := 0 }
  let s := { s with sys_rt_exec_state := 0 }
  let s := { s with sys_rt_exec_alarm := 0 }
  let s := { s with sys_rt_exec_motion_override := 0 }
  let s := { s with sys_rt_exec_accessory_override := 0 }
  s

/-! ## `port_init` -/

/-- `reg &= ~(1 << pin)` on an 8-bit register. -/
def bit_clear (reg pin : Nat) : Nat :=
  (reg &&& (255 ^^^ (1 <<< pin))) % 256

/-- `reg |= (1 << pin)` on an 8-bit register. -/
def bit_set (reg pin : Nat) : Nat :=
  (reg ||| (1 <<< pin)) % 256

/-- `configure_as_input(port, pin)`: `DDRport &= ~(1 << pin)`. -/
def configure_as_input (pin : Nat) (p : Port) : Port :=
  { p with ddr := bit_clear p.ddr pin }

/-- `configure_as_output(port, pin)`: `DDRport |= (1 << pin)`. -/
def configure_as_output (pin : Nat) (p : Port) : Port :=
  { p with ddr := bit_set p.ddr pin }

/-- `pullup_on(port, pin)`: `PORTport |= (1 << pin)`. -/
def pullup_on (pin : Nat) (p : Port) : Port :=
  { p with port := bit_set p.port pin }

/-- `pullup_off(port, pin)`: `PORTport &= ~(1 << pin)`. -/
def pullup_off (pin : Nat) (p : Port) : Port :=
  { p with port := bit_clear p.port pin }

/-- `set_high(port, pin)`: `PORTport |= (1 << pin)`. -/
def set_high (pin : Nat) (p : Port) : Port :=
  { p with port := bit_set p.port pin }

/-- `set_low(port, pin)`: `PORTport &= ~(1 << pin)`. -/
def set_low (pin : Nat) (p : Port) : Port :=
  { p with port := bit_clear p.port pin }

/-- `set_to_input_high_z(port, pin)`. -/
def set_to_input_high_z (pin : Nat) (p : Port) : Port :=
  pullup_off pin (configure_as_input pin p)

/-- `set_to_input_pullup(port, pin)`. -/
def set_to_input_pullup (pin : Nat) (p : Port) : Port :=
  pullup_on pin (configure_as_input pin p)

/-- `set_to_output_low(port, pin)`. -/
def set_to_output_low (pin : Nat) (p : Port) : Port :=
  set_low pin (configure_as_output pin p)

/-- `set_to_output_high(port, pin)`. -/
def set_to_output_high (pin : Nat) (p : Port) : Port :=
  set_high pin (configure_as_output pin p)

/-- `port_init` of `main.c`, port by port, each line in source order. -/
def port_init (p : Ports) : Ports :=
  { A := p.A
      |> set_to_input_pullup 0
      |> set_to_output_low 3
      |> set_to_output_low 4
    B := p.B
      |> set_to_input_pullup 0
      |> set_to_input_pullup 1
      |> set_to_input_pullup 2
      |> set_to_input_pullup 3
      |> set_to_output_high 7
    C := p.C
      |> set_to_output_low 3
      |> set_to_output_low 4
      |> set_to_input_pullup 5
      |> set_to_input_pullup 6
    D := p.D
      |> set_to_input_pullup 2
      |> set_to_input_pullup 3
      |> set_to_input_pullup 5
    E := p.E
      |> set_to_input_pullup 2
      |> set_to_input_pullup 3
      |> set_to_output_low 4
      |> set_to_input_pullup 5
      |> set_to_input_pullup 6
      |> set_to_input_pullup 7
    F := p.F
      |> set_to_input_pullup 0
      |> set_to_input_pullup 1
      |> set_to_input_pullup 2
      |> set_to_input_pullup 3
      |> set_to_input_pullup 4
      |> set_to_input_pullup 5
      |> set_to_input_pullup 6
      |> set_to_input_pullup 7
    G := p.G
      |> set_to_output_high 0
      |> set_to_output_high 1
      |> set_to_output_high 2
      |> set_to_input_pullup 3
      |> set_to_input_pullup 4
      |> set_to_output_low 5
    H := p.H
      |> set_to_input_pullup 0
      |> set_to_input_pullup 2
      |> set_to_output_low 3
      |> set_to_output_low 4
      |> set_to_output_low 5
      |> set_to_input_pullup 6
      |> set_to_input_pullup 7
    J := p.J
      |> set_to_input_pullup 0
      |> set_to_input_pullup 1
      |> set_to_input_pullup 2
      |> set_to_output_low 7
    K := p.K
      |> set_to_input_pullup 0
      |> set_to_input_pullup 1
      |> set_to_input_pullup 2
      |> set_to_output_low 3
      |> set_to_output_low 4
      |> set_to_output_high 5
      |> set_to_output_high 6
      |> set_to_output_high 7
    L := p.L
      |> set_to_output_low 3
      |> set_to_output_low 4
      |> set_to_output_low 5
      |> set_to_output_low 6
      |> set_to_output_low 7 }

/-! ## Collaborators

`main` calls into the serial, settings, stepper, system, g-code, spindle,
coolant, limits, probe, sleep, planner, report and protocol modules.  None of
them is part of `main.c`. -/

/-- Compile-time configuration read by `main`: whether the two `#ifdef`
switches are defined, and the values of the constants `main` names. -/
structure Config where
  FORCE_INITIALIZATION_ALARM : Bool
  HOMING_INIT_LOCK : Bool
  STATE_IDLE : Nat
  STATE_ALARM : Nat
  BITFLAG_HOMING_ENABLE : Nat

/-- Modelled from the spec: the collaborator entry points are defined outside
`main.c`.  Each takes no argument and returns no value; a collaborator that
cannot reach a safe state raises flags on the Signal Bus (spec 4.3), so
`raise c` gives the flags the call `c` raises in each of the four registers.
`persisted_flags` is the flags byte that `settings_init` loads from EEPROM. -/
structure Collaborators where
  raise : Call → Bus
  persisted_flags : Nat

/-- Modelled from the spec: `bit_istrue(x, mask)` is a macro from a header
outside `main.c`; it tells whether the setting selected by `mask` is on in the
flags byte `x`. -/
def bit_istrue (x mask : Nat) : Bool :=
  (x &&& mask) != 0

/-- Modelled from the spec: a flag is raised by or-ing its mask into the 8-bit
register (spec 3 and 4.1: bits are only ever added by a set). -/
def raise_flags (reg mask : Nat) : Nat :=
  (reg ||| mask) % 256

/-- Modelled from the spec: the effect common to every collaborator call: the
call is recorded and the flags it raises are added to the Signal Bus. -/
def call {k : Nat} (env : Collaborators) (c : Call) (s : State k) : State k :=
  { s with
    sys_rt_exec_state := raise_flags s.sys_rt_exec_state (env.raise c).exec_state
    sys_rt_exec_alarm := raise_flags s.sys_rt_exec_alarm (env.raise c).exec_alarm
    sys_rt_exec_motion_override :=
      raise_flags s.sys_rt_exec_motion_override (env.raise c).motion_override
    sys_rt_exec_accessory_override :=
      raise_flags s.sys_rt_exec_accessory_override (env.raise c).accessory_override
    trace := s.trace ++ [c] }

/-- Modelled from the spec: `serial_init`. -/
def serial_init {k : Nat} (env : Collaborators) (s : State k) : State k :=
  call env Call.serial_init s

/-- Modelled from the spec: `settings_init` loads the persisted settings; of
these `main` reads `settings.flags`. -/
def settings_init {k : Nat} (env : Collaborators) (s : State k) : State k :=
  { call env Call.settings_init s with settings_flags := env.persisted_flags }

/-- Modelled from the spec: `stepper_init`. -/
def stepper_init {k : Nat} (env : Collaborators) (s : State k) : State k :=
  call env Call.stepper_init s

/-- Modelled from the spec: `system_init`. -/
def system_init {k : Nat} (env : Collaborators) (s : State k) : State k :=
  call env Call.system_init s

/-- Modelled from the spec: `sei()` enables interrupts. -/
def sei {k : Nat} (env : Collaborators) (s : State k) : State k :=
  call env Call.sei s

/-- Modelled from the spec: `serial_reset_read_buffer`. -/
def serial_reset_read_buffer {k : Nat} (env : Collaborators) (s : State k) : State k :=
  call env Call.serial_reset_read_buffer s

/-- Modelled from the spec: `gc_init` puts the parser in its default state;
its position tracker is cleared (`main.c`: "Sync cleared gcode and planner
positions"). -/
def gc_init {k : Nat} (env : Collaborators) (s : State k) : State k :=
  { call env Call.gc_init s with gc_position := memset_zero s.gc_position }

/-- Modelled from the spec: `spindle_init`. -/
def spindle_init {k : Nat} (env : Collaborators) (s : State k) : State k :=
  call env Call.spindle_init s

/-- Modelled from the spec: `coolant_init`. -/
def coolant_init {k : Nat} (env : Collaborators) (s : State k) : State k :=
  call env Call.coolant_init s

/-- Modelled from the spec: `limits_init`. -/
def limits_init {k : Nat} (env : Collaborators) (s : State k) : State k :=
  call env Call.limits_init s

/-- Modelled from the spec: `probe_init`. -/
def probe_init {k : Nat} (env : Collaborators) (s : State k) : State k :=
  call env Call.probe_init s

/-- Modelled from the spec: `sleep_init`. -/
def sleep_init {k : Nat} (env : Collaborators) (s : State k) : State k :=
  call env Call.sleep_init s

/-- Modelled from the spec: `plan_reset` clears the planner; its target
position is cleared (`main.c`: "Sync cleared gcode and planner positions"). -/
def plan_reset {k : Nat} (env : Collaborators) (s : State k) : State k :=
  { call env Call.plan_reset s with pl_position := memset_zero s.pl_position }

/-- Modelled from the spec: `st_reset`. -/
def st_reset {k : Nat} (env : Collaborators) (s : State k) : State k :=
  call env Call.st_reset s

/-- Modelled from the spec: `plan_sync_position` sets the planner's internal
target position equal to the current Machine Position (spec 4.3, step 4). -/
def plan_sync_position {k : Nat} (env : Collaborators) (s : State k) : State k :=
  { call env Call.plan_sync_position s with pl_position := s.sys_position }

/-- Modelled from the spec: `gc_sync_position` sets the parser's internal
current position equal to the current Machine Position (spec 4.3, step 4). -/
def gc_sync_position {k : Nat} (env : Collaborators) (s : State k) : State k :=
  { call env Call.gc_sync_position s with gc_position := s.sys_position }

/-- Modelled from the spec: `report_init_message` emits the startup notice. -/
def report_init_message {k : Nat} (env : Collaborators) (s : State k) : State k :=
  call env Call.report_init_message s

/-- The call `protocol_main_loop()` is made: control passes to the foreground
loop. -/
def enter_protocol_main_loop {k : Nat} (s : State k) : State k :=
  { s with trace := s.trace ++ [Call.protocol_main_loop] }

/-- Modelled from the spec: `protocol_main_loop` runs the foreground loop
until it observes an abort, then returns; `fg` is what it does to the memory
meanwhile. -/
def protocol_main_loop {k : Nat} (fg : State k → State k) (s : State k) : State k :=
  fg (enter_protocol_main_loop s)

/-! ## `main` -/

/-- Lines 146-172 of `main.c`: initialization upon power-up, up to the
`for(;;)` loop. -/
def main_init {k : Nat} (cfg : Config) (env : Collaborators) (s : State k) : State k :=
  let s := { s with ports := port_init s.ports, trace := s.trace ++ [Call.port_init] }
  let s := serial_init env s
  let s := settings_init env s
  let s := stepper_init env s
  let s := system_init env s
  let s := { s with sys_position := memset_zero s.sys_position }
  let s := sei env s
  let s :=
    if cfg.FORCE_INITIALIZATION_ALARM then
      { s with sys := { s.sys with state := cfg.STATE_ALARM } }
    else
      { s with sys := { s.sys with state := cfg.STATE_IDLE } }
  let s :=
    if cfg.HOMING_INIT_LOCK then
      if bit_istrue s.settings_flags cfg.BITFLAG_HOMING_ENABLE then
        { s with sys := { s.sys with state := cfg.STATE_ALARM } }
      else s
    else s
  s

/-- Lines 193-201 of `main.c`: "Reset Grbl primary systems". -/
def reset_primary_systems {k : Nat} (env : Collaborators) (s : State k) : State k :=
  let s := serial_reset_read_buffer env s
  let s := gc_init env s
  let s := spindle_init env s
  let s := coolant_init env s
  let s := limits_init env s
  let s := probe_init env s
  let s := sleep_init env s
  let s := plan_reset env s
  let s := st_reset env s
  s

/-- Lines 204-205 of `main.c`: "Sync cleared gcode and planner positions to
current system position". -/
def sync_positions {k : Nat} (env : Collaborators) (s : State k) : State k :=
  let s := plan_sync_position env s
  let s := gc_sync_position env s
  s

/-- Lines 179-208 of `main.c`: one pass through the body of the `for(;;)` loop
up to the point where `protocol_main_loop` is called. -/
def reset_iteration {k : Nat} (env : Collaborators) (s : State k) : State k :=
  let s := reset_variables s
  let s := reset_primary_systems env s
  let s := sync_positions env s
  let s := report_init_message env s
  s

/-- Lines 177-213 of `main.c`: the body of the `for(;;)` loop. -/
def loop_body {k : Nat} (env : Collaborators) (fg : State k → State k) (s : State k) :
    State k :=
  protocol_main_loop fg (reset_iteration env s)

/-- The `for(;;)` loop of `main`, followed for `n` returns of the foreground
loop. -/
def main_loop {k : Nat} (env : Collaborators) (fg : State k → State k) :
    Nat → State k → State k
  | 0, s => s
  | n + 1, s => main_loop env fg n (loop_body env fg s)

/-- `main` of `main.c`, followed for `n` returns of the foreground loop. -/
def main {k : Nat} (cfg : Config) (env : Collaborators) (fg : State k → State k)
    (n : Nat) (s : State k) : State k :=
  main_loop env fg n (main_init cfg env s)

/-! ## The Signal Bus protocol -/

/-- The four realtime executor registers declared in `main.c`. -/
inductive Register where
  | sys_rt_exec_state
  | sys_rt_exec_alarm
  | sys_rt_exec_motion_override
  | sys_rt_exec_accessory_override
  deriving DecidableEq, Repr

/-- Current content of a register. -/
def Register.read {k : Nat} (r : Register) (s : State k) : Nat :=
  match r with
  | Register.sys_rt_exec_state => s.sys_rt_exec_state
  | Register.sys_rt_exec_alarm => s.sys_rt_exec_alarm
  | Register.sys_rt_exec_motion_override => s.sys_rt_exec_motion_override
  | Register.sys_rt_exec_accessory_override => s.sys_rt_exec_accessory_override

/-- Store into a register. -/
def Register.write {k : Nat} (r : Register) (v : Nat) (s : State k) : State k :=
  match r with
  | Register.sys_rt_exec_state => { s with sys_rt_exec_state := v }
  | Register.sys_rt_exec_alarm => { s with sys_rt_exec_alarm := v }
  | Register.sys_rt_exec_motion_override => { s with sys_rt_exec_motion_override := v }
  | Register.sys_rt_exec_accessory_override => { s with sys_rt_exec_accessory_override := v }

/-- Modelled from the spec: clearing the bits of `mask` in an 8-bit register
(the "clears exactly those bits" of spec 4.1). -/
def clear_flags (reg mask : Nat) : Nat :=
  (reg &&& (255 ^^^ (mask % 256))) % 256

/-- Modelled from the spec: `set(flag)` of spec 4.1; the functions that set
flags are defined outside `main.c`. -/
def Register.set {k : Nat} (r : Register) (flag : Nat) (s : State k) : State k :=
  r.write (raise_flags (r.read s) flag) s

/-- Modelled from the spec: `take_and_clear_all()` of spec 4.1: reads the
current bit set and clears exactly those bits; returns the bits read and the
memory afterwards.  It is defined outside `main.c`. -/
def Register.take_and_clear_all {k : Nat} (r : Register) (s : State k) : Nat × State k :=
  let taken := r.read s
  (taken, r.write (clear_flags (r.read s) taken) s)

/-- A sequence of flag-set operations on one register, first to last. -/
def Register.set_all {k : Nat} (r : Register) (flags : List Nat) (s : State k) : State k :=
  flags.foldl (fun st f => r.set f st) s

/-- The union of a list of flag masks. -/
def flag_union (flags : List Nat) : Nat :=
  flags.foldl (fun acc f => acc ||| f) 0

/-- The part of the memory that P7 of the spec compares: the System State
Record, the Signal Bus and the Position Registers. -/
def observable {k : Nat} (s : State k) : system_t k × Bus × List Int × List Int × Nat :=
  (s.sys,
   { exec_state := s.sys_rt_exec_state, exec_alarm := s.sys_rt_exec_alarm,
     motion_override := s.sys_rt_exec_motion_override,
     accessory_override := s.sys_rt_exec_accessory_override },
   s.sys_position, s.sys_probe_position, s.sys_probe_state)

/-- The all-defaults System State Record: every field zero except the three
overrides. -/
def system_t.defaults (k : Nat) : system_t k :=
  { system_t.zero k with
    f_override := DEFAULT_FEED_OVERRIDE
    r_override := DEFAULT_RAPID_OVERRIDE
    spindle_speed_ovr := DEFAULT_SPINDLE_SPEED_OVERRIDE }

/-- The calls `main` makes in one pass through the loop body, in order. -/
def iteration_calls : List Call :=
  [Call.serial_reset_read_buffer, Call.gc_init, Call.spindle_init, Call.coolant_init,
   Call.limits_init, Call.probe_init, Call.sleep_init, Call.plan_reset, Call.st_reset,
   Call.plan_sync_position, Call.gc_sync_position, Call.report_init_message,
   Call.protocol_main_loop]

/-- The nine reinitialization calls of step 3. -/
def reinit_calls : List Call :=
  [Call.serial_reset_read_buffer, Call.gc_init, Call.spindle_init, Call.coolant_init,
   Call.limits_init, Call.probe_init, Call.sleep_init, Call.plan_reset, Call.st_reset]

/-- A memory to evaluate the definitions on: a three-axis machine stopped at
`(120, -45, 7)` with Operating State 1, stale overrides, a latched probe and
pending flags. -/
def sample : State 2 :=
  { sys := { state := 1, abort := 1, suspend := 3, f_override := 150, r_override := 25,
             spindle_speed_ovr := 180, rest := ⟨[9, 4], rfl⟩ }
    sys_position := [120, -45, 7]
    sys_probe_position := [5, 6, 7]
    sys_probe_state := 1
    sys_rt_exec_state := 16
    sys_rt_exec_alarm := 2
    sys_rt_exec_motion_override := 1
    sys_rt_exec_accessory_override := 64
    settings_flags := 0
    ports := ⟨⟨0, 0⟩, ⟨0, 0⟩, ⟨0, 0⟩, ⟨0, 0⟩, ⟨0, 0⟩, ⟨0, 0⟩, ⟨0, 0⟩, ⟨0, 0⟩, ⟨0, 0⟩, ⟨0, 0⟩,
              ⟨0, 0⟩⟩
    gc_position := [1, 2, 3]
    pl_position := [4, 5, 6]
    trace := [] }

/-- Collaborators that raise nothing; the persisted flags byte has bit 4 set. -/
def quiet : Collaborators :=
  { raise := fun _ => ⟨0, 0, 0, 0⟩, persisted_flags := 16 }

/-- Collaborators of which `limits_init` raises bit 0 of the alarm register. -/
def limits_alarm : Collaborators :=
  { raise := fun c => if c = Call.limits_init then ⟨0, 1, 0, 0⟩ else ⟨0, 0, 0, 0⟩
    persisted_flags := 0 }

/-- C1: after the variable resets at the top of the loop body, whatever the
memory held before, `sys.state` is the prior Operating State, the feed, rapid
and spindle overrides hold their defaults, `sys_probe_state` is 0 and the four
realtime executor registers are 0. -/
theorem reset_variables_state_overrides_flags {k : Nat} (s : State k) :
    (reset_variables s).sys.state = s.sys.state
    ∧ (reset_variables s).sys.f_override = DEFAULT_FEED_OVERRIDE
    ∧ (reset_variables s).sys.r_override = DEFAULT_RAPID_OVERRIDE
    ∧ (reset_variables s).sys.spindle_speed_ovr = DEFAULT_SPINDLE_SPEED_OVERRIDE
    ∧ (reset_variables s).sys_probe_state = 0
    ∧ (reset_variables s).sys_rt_exec_state = 0
    ∧ (reset_variables s).sys_rt_exec_alarm = 0
    ∧ (reset_variables s).sys_rt_exec_motion_override = 0
    ∧ (reset_variables s).sys_rt_exec_accessory_override = 0 :=
  ⟨rfl, rfl, rfl, rfl, rfl, rfl, rfl, rfl, rfl⟩

/-- C2: when a reset iteration has run its two position syncs and is about to
enter the foreground loop, the parser's position tracker, the planner's target
position and `sys_position` are equal (and equal the Machine Position the
iteration started from), whatever the three held before. -/
theorem reset_iteration_positions_synced {k : Nat} (env : Collaborators) (s : State k) :
    (reset_iteration env s).gc_position = (reset_iteration env s).sys_position
    ∧ (reset_iteration env s).pl_position = (reset_iteration env s).sys_position
    ∧ (reset_iteration env s).sys_position = s.sys_position :=
  ⟨rfl, rfl, rfl⟩

/-- C3: a reset iteration leaves `sys_position` as it was, axis by axis, and
leaves `sys_probe_position` zero on every axis; `sys_position` is zeroed by the
power-up part of `main`, before the loop. -/
theorem reset_iteration_keeps_position {k : Nat} (cfg : Config) (env : Collaborators)
    (s : State k) :
    (reset_iteration env s).sys_position = s.sys_position
    ∧ (∀ i, (reset_iteration env s).sys_position.get? i = s.sys_position.get? i)
    ∧ (reset_iteration env s).sys_probe_position
        = List.replicate s.sys_probe_position.length 0
    ∧ (∀ x ∈ (reset_iteration env s).sys_probe_position, x = 0)
    ∧ (main_init cfg env s).sys_position = List.replicate s.sys_position.length 0 := by
  refine ⟨rfl, fun _ => rfl, rfl, ?_, ?_⟩
  · intro x hx
    have h : (reset_iteration env s).sys_probe_position
        = List.replicate s.sys_probe_position.length 0 := rfl
    rw [h] at hx
    exact List.eq_of_mem_replicate hx
  · unfold main_init
    dsimp only
    split <;> split <;> (try split) <;> rfl

/-- The Operating State chosen by the power-up part of `main`, as one
expression of the two compile-time switches and the persisted flags byte. -/
theorem main_init_state {k : Nat} (cfg : Config) (env : Collaborators) (s : State k) :
    (main_init cfg env s).sys.state =
      if cfg.HOMING_INIT_LOCK = true
          ∧ bit_istrue env.persisted_flags cfg.BITFLAG_HOMING_ENABLE = true then
        cfg.STATE_ALARM
      else if cfg.FORCE_INITIALIZATION_ALARM = true then cfg.STATE_ALARM
      else cfg.STATE_IDLE := by
  have hflags : ∀ st : State k,
      (sei env { system_init env (stepper_init env (settings_init env st)) with
        sys_position := memset_zero
          (system_init env (stepper_init env (settings_init env st))).sys_position
        }).settings_flags = env.persisted_flags := fun _ => rfl
  unfold main_init
  dsimp only
  by_cases hF : cfg.FORCE_INITIALIZATION_ALARM = true <;>
    by_cases hH : cfg.HOMING_INIT_LOCK = true <;>
    by_cases hB : bit_istrue env.persisted_flags cfg.BITFLAG_HOMING_ENABLE = true <;>
    simp [hF, hH, hB, hflags]

/-- The power-up part of `main` leaves `sys_position` zero on every axis. -/
theorem main_init_position {k : Nat} (cfg : Config) (env : Collaborators) (s : State k) :
    (main_init cfg env s).sys_position = List.replicate s.sys_position.length 0 := by
  unfold main_init
  dsimp only
  split <;> split <;> (try split) <;> rfl

/-- C4: the Operating State at the end of the power-up part of `main` is
`STATE_ALARM` if `FORCE_INITIALIZATION_ALARM` is defined, or if
`HOMING_INIT_LOCK` is defined and the `BITFLAG_HOMING_ENABLE` bit of the
persisted `settings.flags` is set (in the latter case whatever
`FORCE_INITIALIZATION_ALARM` is). -/
theorem boot_alarm {k : Nat} (cfg : Config) (env : Collaborators) (s : State k)
    (h : cfg.FORCE_INITIALIZATION_ALARM = true
      ∨ (cfg.HOMING_INIT_LOCK = true
          ∧ bit_istrue env.persisted_flags cfg.BITFLAG_HOMING_ENABLE = true)) :
    (main_init cfg env s).sys.state = cfg.STATE_ALARM := by
  rw [main_init_state]
  rcases h with h | h
  · simp [h]
  · simp [h.1, h.2]

/-- Witness of C4: lock-until-homed on, force-alarm off, homing enabled (bit 4
of the persisted flags byte). -/
theorem boot_alarm_witness :
    (main_init ⟨false, true, 0, 1, 16⟩ quiet sample).sys.state = 1 :=
  boot_alarm ⟨false, true, 0, 1, 16⟩ quiet sample (Or.inr ⟨rfl, by decide⟩)

/-- C5: with `FORCE_INITIALIZATION_ALARM` not defined and either
`HOMING_INIT_LOCK` not defined or the homing-enable bit of the persisted flags
clear, the power-up part of `main` ends with `sys.state = STATE_IDLE` and
`sys_position` zero on every axis, whatever else the settings and the memory
held. -/
theorem boot_idle {k : Nat} (cfg : Config) (env : Collaborators) (s : State k)
    (hforce : cfg.FORCE_INITIALIZATION_ALARM = false)
    (hlock : cfg.HOMING_INIT_LOCK = false
      ∨ bit_istrue env.persisted_flags cfg.BITFLAG_HOMING_ENABLE = false) :
    (main_init cfg env s).sys.state = cfg.STATE_IDLE
    ∧ (main_init cfg env s).sys_position = List.replicate s.sys_position.length 0
    ∧ ∀ x ∈ (main_init cfg env s).sys_position, x = 0 := by
  refine ⟨?_, main_init_position cfg env s, ?_⟩
  · rw [main_init_state]
    rcases hlock with h | h <;> simp [h, hforce]
  · intro x hx
    rw [main_init_position] at hx
    exact List.eq_of_mem_replicate hx

/-- Witness of C5: lock-until-homed on but homing disabled in the persisted
flags (bit 4 clear in `limits_alarm.persisted_flags = 0`). -/
theorem boot_idle_witness :
    (main_init ⟨false, true, 0, 1, 16⟩ limits_alarm sample).sys.state = 0
    ∧ (main_init ⟨false, true, 0, 1, 16⟩ limits_alarm sample).sys_position = [0, 0, 0]
    ∧ ∀ x ∈ (main_init ⟨false, true, 0, 1, 16⟩ limits_alarm sample).sys_position, x = 0 :=
  boot_idle ⟨false, true, 0, 1, 16⟩ limits_alarm sample rfl (Or.inr (by decide))

/-- C6: the System State Record after the variable resets (and still when the
iteration is about to enter the foreground loop) has `state` equal to the
prior Operating State, `abort` 0, `suspend` 0, the three overrides at their
compiled-in defaults (100) and every remaining byte 0; so two memories whose
records agree on `state` get equal records, whatever their other fields
held. -/
theorem reset_record_is_defaults {k : Nat} (env : Collaborators) (a b : State k)
    (h : a.sys.state = b.sys.state) :
    (reset_variables a).sys
        = { state := a.sys.state, abort := 0, suspend := 0,
            f_override := DEFAULT_FEED_OVERRIDE, r_override := DEFAULT_RAPID_OVERRIDE,
            spindle_speed_ovr := DEFAULT_SPINDLE_SPEED_OVERRIDE,
            rest := Mathlib.Vector.replicate k 0 }
    ∧ (reset_variables a).sys.state = a.sys.state
    ∧ (reset_variables a).sys.abort = 0
    ∧ (reset_variables a).sys.suspend = 0
    ∧ (reset_variables a).sys.f_override = 100
    ∧ (reset_variables a).sys.r_override = 100
    ∧ (reset_variables a).sys.spindle_speed_ovr = 100
    ∧ (∀ i : Fin k, (reset_variables a).sys.rest.get i = 0)
    ∧ (reset_variables a).sys.rest.toList = List.replicate k 0
    ∧ (reset_iteration env a).sys
        = { state := a.sys.state, abort := 0, suspend := 0,
            f_override := 100, r_override := 100, spindle_speed_ovr := 100,
            rest := Mathlib.Vector.replicate k 0 }
    ∧ (reset_variables a).sys = (reset_variables b).sys
    ∧ (reset_iteration env a).sys = (reset_iteration env b).sys := by
  have ha : (reset_variables a).sys
      = { state := a.sys.state, abort := 0, suspend := 0,
          f_override := 100, r_override := 100, spindle_speed_ovr := 100,
          rest := Mathlib.Vector.replicate k 0 } := rfl
  have hb : (reset_variables b).sys
      = { state := b.sys.state, abort := 0, suspend := 0,
          f_override := 100, r_override := 100, spindle_speed_ovr := 100,
          rest := Mathlib.Vector.replicate k 0 } := rfl
  have ia : (reset_iteration env a).sys = (reset_variables a).sys := rfl
  have ib : (reset_iteration env b).sys = (reset_variables b).sys := rfl
  refine ⟨ha, rfl, rfl, rfl, rfl, rfl, rfl, ?_, rfl, ia.trans ha, ?_, ?_⟩
  · intro i
    rw [ha]
    exact Mathlib.Vector.get_replicate 0 i
  · rw [ha, hb, h]
  · rw [ia, ib, ha, hb, h]

/-- Witness of C6: `sample` and a memory that differs from it in every field of
the record but `state`; both end with the record `1, 0, 0, 100, 100, 100` and
two zero bytes. -/
theorem reset_record_is_defaults_witness :
    (reset_variables sample).sys
        = { state := 1, abort := 0, suspend := 0, f_override := 100, r_override := 100,
            spindle_speed_ovr := 100, rest := ⟨[0, 0], rfl⟩ }
    ∧ (reset_iteration quiet sample).sys
        = { state := 1, abort := 0, suspend := 0, f_override := 100, r_override := 100,
            spindle_speed_ovr := 100, rest := ⟨[0, 0], rfl⟩ }
    ∧ (reset_variables sample).sys
        = (reset_variables { sample with sys :=
            { state := 1, abort := 0, suspend := 0, f_override := 10, r_override := 100,
              spindle_speed_ovr := 0, rest := ⟨[0, 77], rfl⟩ } }).sys
    ∧ (reset_iteration quiet sample).sys
        = (reset_iteration quiet { sample with sys :=
            { state := 1, abort := 0, suspend := 0, f_override := 10, r_override := 100,
              spindle_speed_ovr := 0, rest := ⟨[0, 77], rfl⟩ } }).sys :=
  have w := reset_record_is_defaults quiet sample
    { sample with sys :=
        { state := 1, abort := 0, suspend := 0, f_override := 10, r_override := 100,
          spindle_speed_ovr := 0, rest := ⟨[0, 77], rfl⟩ } } rfl
  ⟨w.1, w.2.2.2.2.2.2.2.2.2.1, w.2.2.2.2.2.2.2.2.2.2.1, w.2.2.2.2.2.2.2.2.2.2.2⟩

/-- Bit `i` of a register after flags were raised on it. -/
theorem testBit_raise_flags (reg mask i : Nat) :
    (raise_flags reg mask).testBit i
      = (decide (i < 8) && (reg.testBit i || mask.testBit i)) := by
  have h : (256 : Nat) = 2 ^ 8 := by norm_num
  unfold raise_flags
  rw [h, Nat.testBit_mod_two_pow, Nat.testBit_or]

/-- A register stays within eight bits when flags are raised on it. -/
theorem raise_flags_lt (reg mask : Nat) : raise_flags reg mask < 256 :=
  Nat.mod_lt _ (by norm_num)

/-- Clearing from a register exactly the bits it holds leaves it empty. -/
theorem clear_flags_self (reg : Nat) : clear_flags reg reg = 0 := by
  have h : (256 : Nat) = 2 ^ 8 := by norm_num
  have h255 : (255 : Nat) = 2 ^ 8 - 1 := by norm_num
  apply Nat.eq_of_testBit_eq
  intro i
  unfold clear_flags
  rw [h, h255, Nat.testBit_mod_two_pow, Nat.testBit_and, Nat.testBit_xor,
    Nat.testBit_two_pow_sub_one, Nat.testBit_mod_two_pow]
  by_cases hi : i < 8 <;> cases hb : reg.testBit i <;> simp [hi]

/-- Or-ing a list of masks onto an accumulator. -/
theorem foldl_or_acc (flags : List Nat) (acc : Nat) :
    flags.foldl (fun a f => a ||| f) acc = acc ||| flag_union flags := by
  induction flags generalizing acc with
  | nil => simp [flag_union]
  | cons f fs ih =>
    have h1 := ih (acc ||| f)
    have h2 := ih (0 ||| f)
    simp only [flag_union, List.foldl_cons] at h1 h2 ⊢
    rw [h1, h2, Nat.zero_or, Nat.or_assoc]

/-- A bit is in the union of a list of masks exactly when it is in one of
them. -/
theorem testBit_flag_union (flags : List Nat) (i : Nat) :
    (flag_union flags).testBit i = true ↔ ∃ f ∈ flags, f.testBit i = true := by
  induction flags with
  | nil => simp [flag_union]
  | cons f fs ih =>
    have h : flag_union (f :: fs) = f ||| flag_union fs := by
      have := foldl_or_acc fs (0 ||| f)
      simp only [Nat.zero_or] at this
      simpa [flag_union] using this
    rw [h, Nat.testBit_or, Bool.or_eq_true, ih]
    simp

/-- Raising a list of masks in turn on an 8-bit register raises their union. -/
theorem foldl_raise_flags (flags : List Nat) (reg : Nat) (hreg : reg < 256) :
    flags.foldl raise_flags reg = (reg ||| flag_union flags) % 256 := by
  induction flags generalizing reg with
  | nil => simp [flag_union, Nat.mod_eq_of_lt hreg]
  | cons f fs ih =>
    have h : flag_union (f :: fs) = f ||| flag_union fs := by
      have := foldl_or_acc fs (0 ||| f)
      simp only [Nat.zero_or] at this
      simpa [flag_union] using this
    rw [List.foldl_cons, ih _ (raise_flags_lt reg f), h]
    have h256 : (256 : Nat) = 2 ^ 8 := by norm_num
    apply Nat.eq_of_testBit_eq
    intro i
    rw [h256, Nat.testBit_mod_two_pow, Nat.testBit_mod_two_pow, Nat.testBit_or,
      Nat.testBit_or, Nat.testBit_or, testBit_raise_flags]
    by_cases hi : i < 8 <;> simp [hi, Bool.or_assoc]

/-- Reading back what was just stored in a register. -/
theorem Register.read_write {k : Nat} (r : Register) (v : Nat) (s : State k) :
    r.read (r.write v s) = v := by
  cases r <;> rfl

/-- Storing twice in a register keeps the last store. -/
theorem Register.write_write {k : Nat} (r : Register) (v w : Nat) (s : State k) :
    r.write w (r.write v s) = r.write w s := by
  cases r <;> rfl

/-- Storing in a register what it holds changes nothing. -/
theorem Register.write_read {k : Nat} (r : Register) (s : State k) :
    r.write (r.read s) s = s := by
  cases r <;> rfl

/-- Content of a register after a sequence of flag-set operations. -/
theorem Register.read_set_all {k : Nat} (r : Register) (flags : List Nat) (s : State k) :
    r.read (r.set_all flags s) = flags.foldl raise_flags (r.read s) := by
  induction flags generalizing s with
  | nil => rfl
  | cons f fs ih =>
    have h : r.set_all (f :: fs) s = r.set_all fs (r.set f s) := rfl
    rw [h, ih, List.foldl_cons]
    simp [Register.set, Register.read_write]

/-- The variable resets leave every register empty. -/
theorem Register.read_reset_variables {k : Nat} (r : Register) (s : State k) :
    r.read (reset_variables s) = 0 := by
  cases r <;> rfl

/-- What a take-and-clear returns after `flags` were set on an empty
register. -/
theorem take_after_sets {k : Nat} (r : Register) (flags : List Nat) (s : State k)
    (hempty : r.read s = 0) :
    (r.take_and_clear_all (r.set_all flags s)).1 = flag_union flags % 256
    ∧ ∀ i, ((r.take_and_clear_all (r.set_all flags s)).1.testBit i = true
        ↔ i < 8 ∧ ∃ f ∈ flags, f.testBit i = true) := by
  have h : (r.take_and_clear_all (r.set_all flags s)).1 = flag_union flags % 256 := by
    show r.read (r.set_all flags s) = _
    rw [Register.read_set_all, hempty, foldl_raise_flags _ _ (by norm_num), Nat.zero_or]
  refine ⟨h, fun i => ?_⟩
  have h256 : (256 : Nat) = 2 ^ 8 := by norm_num
  rw [h, h256, Nat.testBit_mod_two_pow, Bool.and_eq_true, decide_eq_true_eq,
    testBit_flag_union]

/-- The union of 8-bit masks is an 8-bit mask. -/
theorem flag_union_lt (flags : List Nat) (hflags : ∀ f ∈ flags, f < 256) :
    flag_union flags < 256 := by
  have h256 : (256 : Nat) = 2 ^ 8 := by norm_num
  rw [h256]
  apply Nat.lt_pow_two_of_testBit
  intro i hi
  cases hU : (flag_union flags).testBit i
  · rfl
  · obtain ⟨f, hf, hfi⟩ := (testBit_flag_union flags i).mp hU
    have hlt : f < 2 ^ i :=
      lt_of_lt_of_le (hflags f hf) (h256 ▸ Nat.pow_le_pow_right (by norm_num) hi)
    rw [Nat.testBit_lt_two_pow hlt] at hfi
    exact absurd hfi (by simp)

/-- C9: on each of the four registers, after any sequence of flag-set
operations (each flag an 8-bit mask) made on the empty register, as the
variable resets or a take-and-clear leave it, one take-and-clear returns
exactly the union of the flags set: a bit is returned if and only if one of
the operations set it.  A second take-and-clear with no set in between returns
the empty set, and setting a flag that is already set changes nothing. -/
theorem signal_bus_no_lost_signal {k : Nat} (r : Register) (flags : List Nat) (s : State k)
    (hflags : ∀ f ∈ flags, f < 256) :
    (r.take_and_clear_all (r.set_all flags (reset_variables s))).1 = flag_union flags
    ∧ (r.take_and_clear_all (r.set_all flags (r.take_and_clear_all s).2)).1
        = flag_union flags
    ∧ (∀ i, ((r.take_and_clear_all (r.set_all flags (reset_variables s))).1.testBit i = true
        ↔ ∃ f ∈ flags, f.testBit i = true))
    ∧ (r.take_and_clear_all (r.take_and_clear_all (r.set_all flags s)).2).1 = 0
    ∧ (r.take_and_clear_all
        (r.take_and_clear_all (r.set_all flags (reset_variables s))).2).1 = 0
    ∧ (∀ f, r.set f (r.set f s) = r.set f s)
    ∧ (∀ f, f ∈ flags → r.set f (r.set_all flags (reset_variables s))
        = r.set_all flags (reset_variables s)) := by
  have hclear : ∀ st : State k, r.read (r.take_and_clear_all st).2 = 0 := by
    intro st
    simp [Register.take_and_clear_all, Register.read_write, clear_flags_self]
  have hmod : flag_union flags % 256 = flag_union flags :=
    Nat.mod_eq_of_lt (flag_union_lt flags hflags)
  have h1 := take_after_sets r flags (reset_variables s) (Register.read_reset_variables r s)
  have h2 := take_after_sets r flags (r.take_and_clear_all s).2 (hclear s)
  rw [hmod] at h1 h2
  refine ⟨h1.1, h2.1, ?_, hclear _, hclear _, ?_, ?_⟩
  · intro i
    rw [h1.1]
    exact testBit_flag_union flags i
  · intro f
    have hbits : raise_flags (raise_flags (r.read s) f) f = raise_flags (r.read s) f := by
      apply Nat.eq_of_testBit_eq
      intro i
      rw [testBit_raise_flags, testBit_raise_flags]
      by_cases hi : i < 8 <;> simp [hi, Bool.or_assoc]
    simp only [Register.set, Register.read_write, Register.write_write, hbits]
  · intro f hf
    have hread : r.read (r.set_all flags (reset_variables s)) = flag_union flags := h1.1
    have hbits : raise_flags (flag_union flags) f = flag_union flags := by
      have h256 : (256 : Nat) = 2 ^ 8 := by norm_num
      apply Nat.eq_of_testBit_eq
      intro i
      rw [testBit_raise_flags]
      by_cases hi : i < 8
      · cases hfi : f.testBit i
        · simp [hi]
        · have hU : (flag_union flags).testBit i = true :=
            (testBit_flag_union flags i).mpr ⟨f, hf, hfi⟩
          simp [hi, hU]
      · have hlt : flag_union flags < 2 ^ i :=
          lt_of_lt_of_le (flag_union_lt flags hflags)
            (h256 ▸ Nat.pow_le_pow_right (by norm_num) (Nat.le_of_not_lt hi))
        simp [hi, Nat.testBit_lt_two_pow hlt]
    rw [Register.set, hread, hbits, ← hread, Register.write_read]

/-- Witness of C9: bit 0, bit 2 and bit 0 again are set on the alarm register
after the variable resets of `sample`; the take returns bits 0 and 2. -/
theorem signal_bus_no_lost_signal_witness :
    (Register.sys_rt_exec_alarm.take_and_clear_all
        (Register.sys_rt_exec_alarm.set_all [1, 4, 1] (reset_variables sample))).1 = 5
    ∧ (Register.sys_rt_exec_alarm.take_and_clear_all
        (Register.sys_rt_exec_alarm.take_and_clear_all
          (Register.sys_rt_exec_alarm.set_all [1, 4, 1] (reset_variables sample))).2).1 = 0 :=
  ⟨(signal_bus_no_lost_signal Register.sys_rt_exec_alarm [1, 4, 1] sample (by decide)).1,
   (signal_bus_no_lost_signal Register.sys_rt_exec_alarm [1, 4, 1] sample
      (by decide)).2.2.2.2.1⟩

/-! ### The Signal Bus across one reset iteration -/

/-- The calls made between the variable resets and the hand-over to the
foreground loop leave in each register exactly the flags they raised. -/
theorem reset_iteration_bus {k : Nat} (env : Collaborators) (s : State k) :
    (reset_iteration env s).sys_rt_exec_state
        = iteration_calls.dropLast.foldl (fun reg c => raise_flags reg (env.raise c).exec_state) 0
    ∧ (reset_iteration env s).sys_rt_exec_alarm
        = iteration_calls.dropLast.foldl (fun reg c => raise_flags reg (env.raise c).exec_alarm) 0
    ∧ (reset_iteration env s).sys_rt_exec_motion_override
        = iteration_calls.dropLast.foldl
            (fun reg c => raise_flags reg (env.raise c).motion_override) 0
    ∧ (reset_iteration env s).sys_rt_exec_accessory_override
        = iteration_calls.dropLast.foldl
            (fun reg c => raise_flags reg (env.raise c).accessory_override) 0 :=
  ⟨rfl, rfl, rfl, rfl⟩

/-- A flag raised by one of the calls of a list is in the register after the
whole list has run. -/
theorem testBit_foldl_raise (g : Call → Nat) (calls : List Call) (reg i : Nat) (hi : i < 8) :
    (calls.foldl (fun reg c => raise_flags reg (g c)) reg).testBit i = true
      ↔ (raise_flags reg 0).testBit i = true ∨ ∃ c ∈ calls, (g c).testBit i = true := by
  induction calls generalizing reg with
  | nil =>
    simp only [List.foldl_nil, List.not_mem_nil, false_and, exists_false, or_false]
    constructor
    · intro h
      rw [testBit_raise_flags]
      simp [hi, h]
    · intro h
      rw [testBit_raise_flags] at h
      simpa [hi] using h
  | cons c cs ih =>
    rw [List.foldl_cons, ih, testBit_raise_flags, testBit_raise_flags, testBit_raise_flags]
    simp only [hi, decide_True, Bool.true_and, Nat.zero_testBit, Bool.or_false,
      Bool.or_eq_true, List.mem_cons, exists_eq_or_imp]
    tauto

/-- C8: two reset iterations back to back, the foreground loop returning at
once, leave the System State Record, the four Signal Bus registers,
`sys_position`, `sys_probe_position` and `sys_probe_state` as one iteration
does; the same holds of the whole memory but for the record of calls made, and
the variable resets alone are idempotent on the whole memory. -/
theorem reset_idempotent {k : Nat} (env : Collaborators) (s : State k) :
    observable (loop_body env id (loop_body env id s)) = observable (loop_body env id s)
    ∧ observable (main_loop env id 2 s) = observable (main_loop env id 1 s)
    ∧ observable (reset_iteration env (reset_iteration env s))
        = observable (reset_iteration env s)
    ∧ { reset_iteration env (reset_iteration env s) with trace := [] }
        = { reset_iteration env s with trace := [] }
    ∧ reset_variables (reset_variables s) = reset_variables s := by
  have hlen : ∀ l : List Int, memset_zero (memset_zero l) = memset_zero l := by
    intro l
    simp [memset_zero]
  have hfull : { reset_iteration env (reset_iteration env s) with trace := [] }
      = { reset_iteration env s with trace := [] } := by
    simp [reset_iteration, report_init_message, sync_positions,
      gc_sync_position, plan_sync_position, reset_primary_systems, st_reset, plan_reset,
      sleep_init, probe_init, limits_init, coolant_init, spindle_init, gc_init,
      serial_reset_read_buffer, call, reset_variables, hlen]
  have e : ∀ t : State k, observable (reset_iteration env t)
      = ({ system_t.defaults k with state := t.sys.state },
         { exec_state := (reset_iteration env s).sys_rt_exec_state
           exec_alarm := (reset_iteration env s).sys_rt_exec_alarm
           motion_override := (reset_iteration env s).sys_rt_exec_motion_override
           accessory_override := (reset_iteration env s).sys_rt_exec_accessory_override },
         t.sys_position, memset_zero t.sys_probe_position, 0) := fun _ => rfl
  have e1 : (reset_iteration env s).sys.state = s.sys.state := rfl
  have e2 : (reset_iteration env s).sys_position = s.sys_position := rfl
  have e3 : (reset_iteration env s).sys_probe_position = memset_zero s.sys_probe_position :=
    rfl
  have hobs : observable (reset_iteration env (reset_iteration env s))
      = observable (reset_iteration env s) := by
    rw [e (reset_iteration env s), e s, e1, e2, e3, hlen]
  have hloop : ∀ t : State k,
      loop_body env id t = enter_protocol_main_loop (reset_iteration env t) := fun _ => rfl
  have hent : ∀ t : State k, observable (enter_protocol_main_loop t) = observable t :=
    fun _ => rfl
  have hiter : ∀ t u : State k, observable t = observable u →
      observable (reset_iteration env t) = observable (reset_iteration env u) := by
    intro t u h
    simp only [observable, Prod.mk.injEq] at h
    rw [e t, e u, h.1, h.2.2.1, h.2.2.2.1]
  have hbody : observable (loop_body env id (loop_body env id s))
      = observable (loop_body env id s) := by
    rw [hloop, hloop, hent, hent, hiter _ _ (hent (reset_iteration env s)), hobs]
  refine ⟨hbody, hbody, hobs, hfull, ?_⟩
  simp [reset_variables, hlen]

/-- C10: after the clearing step `main` does not write the Signal Bus or
`sys_probe_state` again before it calls `protocol_main_loop`: a bit (below the
register width) raised in any of the four registers by one of the nine
reinitialization calls is still set at the hand-over, `sys_probe_state` is
still 0, and a bit is set at the hand-over only if one of the twelve calls made
since the clearing step raised it. -/
theorem raised_flag_survives_to_handover {k : Nat} (env : Collaborators) (s : State k)
    (c : Call) (hc : c ∈ reinit_calls) (i : Nat) (hi : i < 8) :
    ((env.raise c).exec_state.testBit i = true
        → (reset_iteration env s).sys_rt_exec_state.testBit i = true)
    ∧ ((env.raise c).exec_alarm.testBit i = true
        → (reset_iteration env s).sys_rt_exec_alarm.testBit i = true)
    ∧ ((env.raise c).motion_override.testBit i = true
        → (reset_iteration env s).sys_rt_exec_motion_override.testBit i = true)
    ∧ ((env.raise c).accessory_override.testBit i = true
        → (reset_iteration env s).sys_rt_exec_accessory_override.testBit i = true)
    ∧ (reset_iteration env s).sys_probe_state = 0
    ∧ ((reset_iteration env s).sys_rt_exec_state.testBit i = true
        ↔ ∃ d ∈ iteration_calls.dropLast, (env.raise d).exec_state.testBit i = true)
    ∧ ((reset_iteration env s).sys_rt_exec_alarm.testBit i = true
        ↔ ∃ d ∈ iteration_calls.dropLast, (env.raise d).exec_alarm.testBit i = true)
    ∧ ((reset_iteration env s).sys_rt_exec_motion_override.testBit i = true
        ↔ ∃ d ∈ iteration_calls.dropLast, (env.raise d).motion_override.testBit i = true)
    ∧ ((reset_iteration env s).sys_rt_exec_accessory_override.testBit i = true
        ↔ ∃ d ∈ iteration_calls.dropLast,
            (env.raise d).accessory_override.testBit i = true) := by
  have hzero : ¬ ((raise_flags 0 0).testBit i = true) := by
    rw [testBit_raise_flags]
    simp
  have hmem : c ∈ iteration_calls.dropLast := by
    simp only [reinit_calls, List.mem_cons, List.mem_singleton, List.not_mem_nil,
      or_false] at hc
    rcases hc with h | h | h | h | h | h | h | h | h <;> subst h <;> decide
  obtain ⟨h1, h2, h3, h4⟩ := reset_iteration_bus env s
  refine ⟨?_, ?_, ?_, ?_, rfl, ?_, ?_, ?_, ?_⟩
  · intro h
    rw [h1, testBit_foldl_raise _ _ _ _ hi]
    exact Or.inr ⟨c, hmem, h⟩
  · intro h
    rw [h2, testBit_foldl_raise _ _ _ _ hi]
    exact Or.inr ⟨c, hmem, h⟩
  · intro h
    rw [h3, testBit_foldl_raise _ _ _ _ hi]
    exact Or.inr ⟨c, hmem, h⟩
  · intro h
    rw [h4, testBit_foldl_raise _ _ _ _ hi]
    exact Or.inr ⟨c, hmem, h⟩
  · rw [h1, testBit_foldl_raise _ _ _ _ hi]
    exact or_iff_right hzero
  · rw [h2, testBit_foldl_raise _ _ _ _ hi]
    exact or_iff_right hzero
  · rw [h3, testBit_foldl_raise _ _ _ _ hi]
    exact or_iff_right hzero
  · rw [h4, testBit_foldl_raise _ _ _ _ hi]
    exact or_iff_right hzero

/-- Witness of C10: `limits_init` raises bit 0 of the alarm register; the bit
is set at the hand-over. -/
theorem raised_flag_survives_to_handover_witness :
    (reset_iteration limits_alarm sample).sys_rt_exec_alarm.testBit 0 = true :=
  (raised_flag_survives_to_handover limits_alarm sample Call.limits_init (by decide) 0
    (by decide)).2.1 (by decide)

end Grbl
